import Mathlib

/-!
Shallow embedding of the DigitalProducts single-file storefront frontend
(`src/app.jsx`), covering the parts the claims are about: the cart manager
(`CartProvider`), the auth/session manager (`AuthProvider`), the checkout
flows (`ProductDetail.buyNow`, `Checkout.doCheckout`), the admin actions
(`AdminPage.create`, `AdminPage.uploadFile`) and the `formatPrice` helper.

Event handlers that perform a network call are embedded as pure functions
from the relevant state (session token, cart items) and the response of the server to an "outcome" record listing the HTTP requests issued, the
navigation performed, the user-visible message shown, and the state after
the handler ran.  A server response is either a fulfilled axios promise
carrying parsed JSON data (`ApiResult.ok`) or a rejected promise
(`ApiResult.err`, covering both transport failures and non-2xx statuses,
which axios rejects by default).
-/

/-- A product as served by `GET /api/products[/:id]` and rendered by the
views: id, title, description, price in the smallest currency unit,
cover image URL.  Ids are modelled as strings (they travel through URL
params and JSON untouched); the JS number `price` is modelled as `Int`. -/
structure Product where
  id : String
  title : String
  description : String
  price : Int
  coverImageUrl : String
deriving DecidableEq, Repr

/-- A cart line item: the spread of the fields of a product plus a quantity
(`{ ...product, qty }` in `CartProvider.add`). -/
structure CartItem extends Product where
  qty : Int
deriving DecidableEq, Repr

namespace CartProvider

/-- `add` from `CartProvider` (src/app.jsx line 227):
`setItems(prev => { const found = prev.find(p => p.id === product.id);
 if (found) return prev.map(p => p.id === product.id ? { ...p, qty: p.qty + qty } : p);
 return [...prev, { ...product, qty }] })`.
The JS default argument is `qty = 1`; callers here pass `qty` explicitly. -/
def add (prev : List CartItem) (product : Product) (qty : Int) : List CartItem :=
  if prev.any (fun p => p.id = product.id) then
    prev.map (fun p => if p.id = product.id then { p with qty := p.qty + qty } else p)
  else
    prev ++ [{ toProduct := product, qty := qty }]

/-- `remove` from `CartProvider` (src/app.jsx line 228):
`setItems(prev => prev.filter(p => p.id !== id))`. -/
def remove (prev : List CartItem) (id : String) : List CartItem :=
  prev.filter (fun p => p.id ≠ id)

/-- `clear` from `CartProvider` (src/app.jsx line 229): `setItems([])`. -/
def clear : List CartItem := []

end CartProvider

/-- One operation on the cart through the interface `CartProvider` exposes
(`{ items, add, remove, clear }`). -/
inductive CartOp where
  | add (product : Product) (qty : Int)
  | remove (id : String)
  | clear
deriving DecidableEq, Repr

/-- Apply one cart operation to the current items. -/
def applyCartOp (items : List CartItem) : CartOp → List CartItem
  | .add p q => CartProvider.add items p q
  | .remove id => CartProvider.remove items id
  | .clear => CartProvider.clear

/-- Run a sequence of cart operations starting from the initial empty cart
(`useState([])`). -/
def runCartOps (ops : List CartOp) : List CartItem :=
  ops.foldl applyCartOp []

/-- Whether a cart operation passes a quantity argument that is at least 1
(the only quantity the app itself ever passes is the default 1). -/
def opQtyOk : CartOp → Bool
  | .add _ q => decide (1 ≤ q)
  | _ => true

/-- Whether every line item of a cart has quantity at least 1. -/
def cartQtysOk (items : List CartItem) : Bool :=
  items.all (fun it => decide (1 ≤ it.qty))

/-- `formatPrice` (src/app.jsx line 88):
`p === 0 ? `Free` : `$` + (p / 100).toFixed(2)` (single quotes rendered as backticks).
For a nonnegative integer number of cents, `(p / 100).toFixed(2)` renders
the integral dollar part followed by exactly two decimal digits; the
embedding computes those digits with integer division. -/
def formatPrice (p : Int) : String :=
  if p = 0 then "Free"
  else
    let cents := p % 100
    "$" ++ toString (p / 100) ++ "." ++
      (if cents < 10 then "0" ++ toString cents else toString cents)

/-- The outcome of an axios promise as the handlers observe it: a fulfilled
response with parsed JSON data, or a rejection (network/transport failure,
or a non-2xx status, which axios rejects by default). -/
inductive ApiResult (α : Type) where
  | ok (data : α)
  | err
deriving DecidableEq, Repr

/-- The JSON body of a `POST /api/auth/login` or `/api/auth/register`
response as the client reads it: optional `token`, optional `error`. -/
structure AuthData where
  token : Option String
  error : Option String
deriving DecidableEq, Repr

/-- The session state held by `AuthProvider` after its `useEffect` on
`token` has run: the token itself and the derived `user` placeholder. -/
structure Session where
  token : Option String
  user : Option String
deriving DecidableEq, Repr

/-- The value `login`/`register` resolve with:
`{ ok: true }` or `{ ok: false, error }`. -/
structure AuthResult where
  ok : Bool
  error : Option String
deriving DecidableEq, Repr

/-- The observable side effects of the `useEffect` of `AuthProvider` on `token`
(src/app.jsx lines 54-66): the local-storage contents (key/value pairs),
the `axios.defaults.headers.common.Authorization` value, and the
derived `user`. -/
structure TokenEffectResult where
  localStorage : List (String × String)
  axiosAuthHeader : Option String
  user : Option String
deriving DecidableEq, Repr

/-- JavaScript string coercion of a possibly-null string, as performed by
`Bearer { token }` via JS `+`: `null` concatenates as the literal `"null"`. -/
def jsStringOf : Option String → String
  | some s => s
  | none => "null"

namespace AuthProvider

/-- The `useEffect` on `token`: with a token present it stores it under the
single local-storage key `token`, sets the axios default Authorization
header to `Bearer ` followed by the token and sets the placeholder user; with no token
it removes the key, deletes the default header and clears the user. -/
def tokenEffect : Option String → TokenEffectResult
  | some t => ⟨[("token", t)], some ("Bearer " ++ t), some "user@me"⟩
  | none => ⟨[], none, none⟩

/-- `login` (src/app.jsx lines 68-72), given the pre-state and the axios
outcome.  `Except.error ()` models the uncaught rejection of the axios
promise: `login` has no try/catch, so a failed request propagates as an
exception and no `{ ok, error }` value is returned; since `setToken` was
never reached, the session is unchanged.  On a fulfilled response the
session is the post-`useEffect` state. -/
def login (st : Session) (resp : ApiResult AuthData) :
    Except Unit (Session × AuthResult) :=
  match resp with
  | .err => .error ()
  | .ok d =>
    match d.token with
    | some t => .ok ({ token := some t, user := (tokenEffect (some t)).user },
                     { ok := true, error := none })
    | none => .ok (st, { ok := false, error := some (d.error.getD "Login failed") })

/-- `register` (src/app.jsx lines 73-77): identical to `login` except for
the endpoint and the fallback message `Register failed`. -/
def register (st : Session) (resp : ApiResult AuthData) :
    Except Unit (Session × AuthResult) :=
  match resp with
  | .err => .error ()
  | .ok d =>
    match d.token with
    | some t => .ok ({ token := some t, user := (tokenEffect (some t)).user },
                     { ok := true, error := none })
    | none => .ok (st, { ok := false, error := some (d.error.getD "Register failed") })

/-- `logout` (src/app.jsx line 78): `setToken(null)`; the `useEffect` then
clears the user, so the resulting session is empty. -/
def logout (_st : Session) : Session :=
  { token := none, user := (tokenEffect none).user }

end AuthProvider

/-- The call sites that issue HTTP requests, for stating which
Authorization credential each outbound call carries. -/
inductive CallSite where
  | productsList
  | productById
  | authLogin
  | authRegister
  | checkout
  | adminCreate
  | adminUpload
deriving DecidableEq, Repr

/-- The Authorization header a request issued from the given call site
carries, as a function of the current token.  The two admin calls build an
explicit headers object whose Authorization entry is `Bearer ` + auth.token (string
concatenation, so `null` becomes the literal `"null"`); every other call
uses the axios default header maintained by the token effect. -/
def requestAuthHeader (site : CallSite) (token : Option String) : Option String :=
  match site with
  | .adminCreate => some ("Bearer " ++ jsStringOf token)
  | .adminUpload => some ("Bearer " ++ jsStringOf token)
  | _ => (AuthProvider.tokenEffect token).axiosAuthHeader

/-- The JSON body of a `POST /api/checkout` response as the client reads
it: optional `downloadUrl`, optional `error`. -/
structure CheckoutData where
  downloadUrl : Option String
  error : Option String
deriving DecidableEq, Repr

/-- A checkout request as issued by the handlers: the URL and the
`{ productId }` body. -/
structure CheckoutRequest where
  url : String
  productId : String
deriving DecidableEq, Repr

/-- The observable outcome of running a checkout handler: the requests it
issued, the `window.location.href` navigation (if any), the user-visible
message (toast or alert, if any), and the cart items afterwards. -/
structure CheckoutOutcome where
  requests : List CheckoutRequest
  navigatedTo : Option String
  message : Option String
  cartAfter : List CartItem
deriving DecidableEq, Repr

namespace ProductDetail

/-- `buyNow` (src/app.jsx lines 188-199), given the session token, the
product id of the page (from the URL params), the response and the
current cart items.  `ProductDetail` does not use the cart context at all,
so the cart is passed through untouched on every path:
- no token: toast `Please login first`, no request;
- success with a `downloadUrl`: navigate there (the cart is NOT cleared);
- fulfilled response without a `downloadUrl`: toast the server error or
  `Checkout failed`;
- rejected request: toast `Checkout error`. -/
def buyNow (token : Option String) (id : String) (resp : ApiResult CheckoutData)
    (cart : List CartItem) : CheckoutOutcome :=
  match token with
  | none => ⟨[], none, some "Please login first", cart⟩
  | some _ =>
    let req : CheckoutRequest := ⟨"/api/checkout", id⟩
    match resp with
    | .err => ⟨[req], none, some "Checkout error", cart⟩
    | .ok d =>
      match d.downloadUrl with
      | some u => ⟨[req], some u, none, cart⟩
      | none => ⟨[req], none, some (d.error.getD "Checkout failed"), cart⟩

end ProductDetail

namespace Checkout

/-- `doCheckout` (src/app.jsx lines 375-386), given the session token, the
cart items and the response:
- no token: alert `Login first`, no request;
- empty cart: alert `Cart empty`, no request;
- otherwise one `POST /api/checkout` naming the id of the FIRST item
  (`items[0].id`); on success with a `downloadUrl` it navigates there and
  calls `clear()`; on a fulfilled response without one it alerts the server
  error or `Checkout failed`; on a rejected request it alerts
  `Checkout error` — in the failure cases the cart is untouched. -/
def doCheckout (token : Option String) (items : List CartItem)
    (resp : ApiResult CheckoutData) : CheckoutOutcome :=
  match token with
  | none => ⟨[], none, some "Login first", items⟩
  | some _ =>
    match items with
    | [] => ⟨[], none, some "Cart empty", items⟩
    | first :: _ =>
      let req : CheckoutRequest := ⟨"/api/checkout", first.id⟩
      match resp with
      | .err => ⟨[req], none, some "Checkout error", items⟩
      | .ok d =>
        match d.downloadUrl with
        | some u => ⟨[req], some u, none, CartProvider.clear⟩
        | none => ⟨[req], none, some (d.error.getD "Checkout failed"), items⟩

end Checkout

/-- The JSON body of a `POST /api/admin/products` response as `create`
reads it: optional `id`. -/
structure CreateData where
  id : Option String
deriving DecidableEq, Repr

/-- The JSON body of a `POST /api/admin/products/:id/file` response as
`uploadFile` reads it: optional `filePath`. -/
structure UploadData where
  filePath : Option String
deriving DecidableEq, Repr

/-- An admin request as issued by the handlers: URL and the explicit
Authorization header the handler attaches. -/
structure AdminRequest where
  url : String
  authorization : Option String
deriving DecidableEq, Repr

/-- The observable outcome of an admin handler: the requests issued and
the alert shown. -/
structure AdminOutcome where
  requests : List AdminRequest
  alertMsg : Option String
deriving DecidableEq, Repr

namespace AdminPage

/-- `create` (src/app.jsx lines 311-317), given the session token and the
response.  With no token it alerts `Login as admin` and issues
nothing.  Otherwise it posts the form payload to `/api/admin/products`
with an explicit Authorization header of `Bearer ` + auth.token; the
trailing `.catch(e => e.response?.data)` turns a rejection into a value
with no `.data.id`, so any failure alerts `Create failed` and a response
carrying an id alerts `Created`. -/
def create (token : Option String) (resp : ApiResult CreateData) : AdminOutcome :=
  match token with
  | none => ⟨[], some "Login as admin"⟩
  | some t =>
    let req : AdminRequest := ⟨"/api/admin/products", some ("Bearer " ++ t)⟩
    match resp with
    | .err => ⟨[req], some "Create failed"⟩
    | .ok d =>
      match d.id with
      | some _ => ⟨[req], some "Created"⟩
      | none => ⟨[req], some "Create failed"⟩

/-- `uploadFile` (src/app.jsx lines 319-324), given the session token, the
product id and the response.  Unlike `create` it performs NO
token check: the post to `/api/admin/products/:id/file` is issued
unconditionally, with an Authorization header of `Bearer ` + auth.token — the
literal string `"Bearer null"` when no token is present.  A response
carrying a `filePath` alerts `Uploaded`; anything else alerts
`Upload failed`. -/
def uploadFile (token : Option String) (id : String)
    (resp : ApiResult UploadData) : AdminOutcome :=
  let req : AdminRequest :=
    ⟨"/api/admin/products/" ++ id ++ "/file", some ("Bearer " ++ jsStringOf token)⟩
  match resp with
  | .err => ⟨[req], some "Upload failed"⟩
  | .ok d =>
    match d.filePath with
    | some _ => ⟨[req], some "Uploaded"⟩
    | none => ⟨[req], some "Upload failed"⟩

end AdminPage

/-- Concrete sample product used by concrete witness and counterexample
checks. -/
def sampleA : Product := ⟨"p1", "Alpha", "first", 799, "/a.png"⟩

/-- Second concrete sample product, with an id different from `sampleA`. -/
def sampleB : Product := ⟨"p2", "Beta", "second", 0, "/b.png"⟩

/-- C10: `formatPrice 0` is the string `Free`, and `formatPrice 799` is the
string `$7.99` — integer cent prices render as dollars with two decimal
places, zero renders as `Free`. -/
theorem formatPrice_examples : formatPrice 0 = "Free" ∧ formatPrice 799 = "$7.99" :=
  ⟨rfl, rfl⟩

/-- C9: `remove items id` keeps, in their original order and unchanged
(a sublist of `items`), exactly those line items whose product id differs
from `id`: membership holds iff the item was present and its id differs,
and every item with the given id is removed entirely while the
multiplicity of every other item is preserved. -/
theorem remove_removes_exactly (items : List CartItem) (id : String) :
    (CartProvider.remove items id).Sublist items ∧
    (∀ p : CartItem, p ∈ CartProvider.remove items id ↔ p ∈ items ∧ p.id ≠ id) ∧
    (∀ p : CartItem, (CartProvider.remove items id).count p =
        if p.id = id then 0 else items.count p) := by
  refine ⟨List.filter_sublist items, fun p => ?_, fun p => ?_⟩
  · rw [CartProvider.remove, List.mem_filter, decide_eq_true_iff]
  · by_cases h : p.id = id
    · rw [if_pos h, List.count_eq_zero]
      intro hmem
      rw [CartProvider.remove, List.mem_filter, decide_eq_true_iff] at hmem
      exact hmem.2 h
    · rw [if_neg h, CartProvider.remove]
      exact List.count_filter (by simpa using h)

/-- C3: with no session token, `buyNow` and `doCheckout` issue no request
at all, perform no navigation, leave the cart exactly as it was, and only
show their login prompt (`Please login first` resp. `Login first`) — for
every input and every would-be server response. -/
theorem no_token_no_request (id : String) (resp : ApiResult CheckoutData)
    (cart items : List CartItem) :
    ProductDetail.buyNow none id resp cart = ⟨[], none, some "Please login first", cart⟩ ∧
    Checkout.doCheckout none items resp = ⟨[], none, some "Login first", items⟩ :=
  ⟨rfl, rfl⟩

/-- C8: with a token and a nonempty cart, the cart-page checkout issues
exactly one POST to `/api/checkout`, whose body names exactly the id of
the first line item — whatever the response and whatever the remaining
items, which are never submitted. -/
theorem doCheckout_first_item_only (t : String) (first : CartItem)
    (rest : List CartItem) (resp : ApiResult CheckoutData) :
    (Checkout.doCheckout (some t) (first :: rest) resp).requests =
      [⟨"/api/checkout", first.id⟩] := by
  cases resp with
  | err => rfl
  | ok d => cases d with
    | mk du er => cases du <;> rfl

/-- C1 (amended): with a token, the cart-page checkout on a response
carrying a `downloadUrl` navigates there and clears the cart, and on a
failure (fulfilled response without a `downloadUrl`, or a rejected
request) leaves the cart untouched and shows the server error or the
fallback; `buyNow` behaves identically EXCEPT that on success it only
navigates and never clears the cart (`ProductDetail` does not use the
cart context). -/
theorem checkout_success_failure (t id u : String) (er erf : Option String)
    (first : CartItem) (rest cart : List CartItem) :
    Checkout.doCheckout (some t) (first :: rest) (.ok ⟨some u, er⟩) =
      ⟨[⟨"/api/checkout", first.id⟩], some u, none, []⟩ ∧
    Checkout.doCheckout (some t) (first :: rest) (.ok ⟨none, erf⟩) =
      ⟨[⟨"/api/checkout", first.id⟩], none, some (erf.getD "Checkout failed"), first :: rest⟩ ∧
    Checkout.doCheckout (some t) (first :: rest) .err =
      ⟨[⟨"/api/checkout", first.id⟩], none, some "Checkout error", first :: rest⟩ ∧
    ProductDetail.buyNow (some t) id (.ok ⟨some u, er⟩) cart =
      ⟨[⟨"/api/checkout", id⟩], some u, none, cart⟩ ∧
    ProductDetail.buyNow (some t) id (.ok ⟨none, erf⟩) cart =
      ⟨[⟨"/api/checkout", id⟩], none, some (erf.getD "Checkout failed"), cart⟩ ∧
    ProductDetail.buyNow (some t) id .err cart =
      ⟨[⟨"/api/checkout", id⟩], none, some "Checkout error", cart⟩ :=
  ⟨rfl, rfl, rfl, rfl, rfl, rfl⟩

/-- C1 (counterexample): an authenticated `buyNow` whose response carries
a `downloadUrl` navigates to it but leaves a nonempty cart exactly as it
was — the claim that every successful checkout clears the cart is false
for the product-detail path. -/
theorem buyNow_cart_not_cleared_cx :
    (ProductDetail.buyNow (some "tok") "p1" (.ok ⟨some "/dl/u", none⟩)
        [⟨sampleA, 1⟩]).navigatedTo = some "/dl/u" ∧
    (ProductDetail.buyNow (some "tok") "p1" (.ok ⟨some "/dl/u", none⟩)
        [⟨sampleA, 1⟩]).cartAfter = [⟨sampleA, 1⟩] ∧
    ([⟨sampleA, 1⟩] : List CartItem) ≠ [] :=
  ⟨rfl, rfl, by decide⟩

/-- C4 (amended): `login` and `register` store the returned token and
report ok when the fulfilled response carries one; on a fulfilled response
without a token they return `ok := false` with the server error or the
fallback message and leave the session unchanged; a rejected request,
however, propagates as an uncaught exception (neither has a try/catch), so
no error value is returned — the session is still unchanged, since
`setToken` is never reached. -/
theorem auth_results (st : Session) (t : String) (er : Option String) :
    AuthProvider.login st (.ok ⟨some t, er⟩) =
      .ok (⟨some t, some "user@me"⟩, ⟨true, none⟩) ∧
    AuthProvider.register st (.ok ⟨some t, er⟩) =
      .ok (⟨some t, some "user@me"⟩, ⟨true, none⟩) ∧
    AuthProvider.login st (.ok ⟨none, er⟩) =
      .ok (st, ⟨false, some (er.getD "Login failed")⟩) ∧
    AuthProvider.register st (.ok ⟨none, er⟩) =
      .ok (st, ⟨false, some (er.getD "Register failed")⟩) ∧
    AuthProvider.login st .err = .error () ∧
    AuthProvider.register st .err = .error () :=
  ⟨rfl, rfl, rfl, rfl, rfl, rfl⟩

/-- C4 (counterexample): on a failed request `login` and `register` do not
return any `{ ok, error }` value at all — the rejection escapes as an
exception (`Except.error ()` in the embedding), refuting the claim that
every failure returns a human-readable error value. -/
theorem auth_transport_error_cx :
    AuthProvider.login ⟨none, none⟩ ApiResult.err = Except.error () ∧
    (AuthProvider.login ⟨none, none⟩ ApiResult.err).isOk = false ∧
    AuthProvider.register ⟨none, none⟩ ApiResult.err = Except.error () ∧
    (AuthProvider.register ⟨none, none⟩ ApiResult.err).isOk = false :=
  ⟨rfl, rfl, rfl, rfl⟩

/-- C5 (amended): while a token is present every outbound call — from
every call site, the admin ones included — carries the Authorization
header `Bearer ` + token, and the token is persisted under the single
local-storage key `token`; with no token the key is absent, the axios
default header is deleted (so all non-admin calls are unauthenticated) and
`logout` leaves the token absent.  The exception the code forces: the
admin calls build their header by string concatenation, so the upload call
(issued even without a token) carries the literal `Bearer null`. -/
theorem bearer_header_invariant (t : String) (st : Session) (site : CallSite) :
    requestAuthHeader site (some t) = some ("Bearer " ++ t) ∧
    (AuthProvider.tokenEffect (some t)).localStorage = [("token", t)] ∧
    (AuthProvider.tokenEffect none).localStorage = [] ∧
    (AuthProvider.tokenEffect none).axiosAuthHeader = none ∧
    (AuthProvider.logout st).token = none ∧
    requestAuthHeader CallSite.productsList none = none ∧
    requestAuthHeader CallSite.productById none = none ∧
    requestAuthHeader CallSite.authLogin none = none ∧
    requestAuthHeader CallSite.authRegister none = none ∧
    requestAuthHeader CallSite.checkout none = none := by
  refine ⟨?_, rfl, rfl, rfl, rfl, rfl, rfl, rfl, rfl, rfl⟩
  cases site <;> rfl

/-- C5 (counterexample): with no token present, the admin file-upload call
is still issued and carries the Authorization header `Bearer null` — so it
is not the case that no outbound call carries the Authorization credential
while the token is absent. -/
theorem upload_bearer_null_cx :
    requestAuthHeader CallSite.adminUpload none = some "Bearer null" ∧
    (AdminPage.uploadFile none "p1" (.ok ⟨some "/files/f.zip"⟩)).requests =
      [⟨"/api/admin/products/p1/file", some "Bearer null"⟩] :=
  ⟨rfl, rfl⟩

/-- C6 (amended): product creation requires the token — with none it
issues no request and alerts `Login as admin`, with one it posts to
`/api/admin/products` bearing `Bearer ` + token — and every `create` or
`uploadFile` failure alerts the generic `Create failed` resp.
`Upload failed`; but the file upload performs no token check at all: its
POST to `/api/admin/products/:id/file` is issued for every session state,
carrying `Bearer null` when no token is present. -/
theorem admin_actions (t id : String) (resp : ApiResult CreateData)
    (respU : ApiResult UploadData) :
    AdminPage.create none resp = ⟨[], some "Login as admin"⟩ ∧
    (AdminPage.create (some t) resp).requests =
      [⟨"/api/admin/products", some ("Bearer " ++ t)⟩] ∧
    (AdminPage.create (some t) .err).alertMsg = some "Create failed" ∧
    (AdminPage.create (some t) (.ok ⟨none⟩)).alertMsg = some "Create failed" ∧
    (AdminPage.uploadFile (some t) id respU).requests =
      [⟨"/api/admin/products/" ++ id ++ "/file", some ("Bearer " ++ t)⟩] ∧
    (AdminPage.uploadFile none id respU).requests =
      [⟨"/api/admin/products/" ++ id ++ "/file", some "Bearer null"⟩] ∧
    (AdminPage.uploadFile (some t) id .err).alertMsg = some "Upload failed" ∧
    (AdminPage.uploadFile (some t) id (.ok ⟨none⟩)).alertMsg = some "Upload failed" := by
  refine ⟨rfl, ?_, rfl, rfl, ?_, ?_, rfl, rfl⟩
  · cases resp with
    | err => rfl
    | ok d => cases d with
      | mk i => cases i <;> rfl
  · cases respU with
    | err => rfl
    | ok d => cases d with
      | mk f => cases f <;> rfl
  · cases respU with
    | err => rfl
    | ok d => cases d with
      | mk f => cases f <;> rfl

/-- C6 (counterexample): with no session token, `uploadFile` still issues
its POST — refuting the claim that neither admin action issues its request
without a bearer credential. -/
theorem upload_without_token_cx :
    (AdminPage.uploadFile none "p1" (.ok ⟨some "/files/f.zip"⟩)).requests.length = 1 :=
  rfl

/-- Merging case of `add`: when the ids in the cart are pairwise distinct
and the added product matches the id of the line `it`, the result keeps
every other line unchanged in place and only increments the quantity of
`it` by the given `qty`. -/
lemma add_of_mem_nodup (l₁ l₂ : List CartItem) (it : CartItem) (product : Product)
    (qty : Int) (hnd : ((l₁ ++ it :: l₂).map fun p => p.id).Nodup)
    (hid : it.id = product.id) :
    CartProvider.add (l₁ ++ it :: l₂) product qty =
      l₁ ++ { it with qty := it.qty + qty } :: l₂ := by
  have hany : (l₁ ++ it :: l₂).any (fun p => decide (p.id = product.id)) = true := by
    rw [List.any_eq_true]
    exact ⟨it, by simp, by simp [hid]⟩
  have hl₁ : ∀ x ∈ l₁, x.id ≠ product.id := by
    intro x hx hxid
    rw [List.map_append, List.map_cons, List.nodup_append] at hnd
    exact hnd.2.2 (List.mem_map_of_mem _ hx) (by simp [hxid, hid])
  have hl₂ : ∀ x ∈ l₂, x.id ≠ product.id := by
    intro x hx hxid
    rw [List.map_append, List.map_cons, List.nodup_append, List.nodup_cons] at hnd
    exact hnd.2.1.1 (by rw [hid, ← hxid]; exact List.mem_map_of_mem _ hx)
  rw [CartProvider.add, if_pos hany, List.map_append, List.map_cons, if_pos hid]
  congr 1
  · rw [List.map_congr_left (fun x hx => if_neg (hl₁ x hx))]
    exact List.map_id l₁
  · congr 1
    rw [List.map_congr_left (fun x hx => if_neg (hl₂ x hx))]
    exact List.map_id l₂

/-- Appending case of `add`: when the id of the product is not in the
cart, `add` appends exactly one new line with the given quantity. -/
lemma add_of_not_mem (items : List CartItem) (product : Product) (qty : Int)
    (h : product.id ∉ items.map fun p => p.id) :
    CartProvider.add items product qty = items ++ [{ toProduct := product, qty := qty }] := by
  rw [CartProvider.add, if_neg]
  simp only [List.any_eq_true, decide_eq_true_iff, not_exists, not_and]
  intro x hx hxid
  exact h (hxid ▸ List.mem_map_of_mem _ hx)

/-- C2: adding a product whose id already appears in a cart with
pairwise-distinct line ids (the invariant every cart reachable through the
interface satisfies, see `reachable_cart_ids_nodup`) keeps the same lines
in the same order and only increments the quantity of the matching line by
the given `qty`; adding a product whose id is absent appends exactly one
new line with that quantity; in particular adding the same product twice
with the default quantity 1 yields one line with quantity 2, never two
lines. -/
theorem add_merges_by_id (l₁ l₂ items : List CartItem) (it : CartItem)
    (prodIn prodOut prodTwice : Product) (qty : Int) :
    (((l₁ ++ it :: l₂).map fun p => p.id).Nodup → it.id = prodIn.id →
      CartProvider.add (l₁ ++ it :: l₂) prodIn qty =
        l₁ ++ { it with qty := it.qty + qty } :: l₂) ∧
    ((prodOut.id ∉ items.map fun p => p.id) →
      CartProvider.add items prodOut qty = items ++ [{ toProduct := prodOut, qty := qty }]) ∧
    CartProvider.add (CartProvider.add [] prodTwice 1) prodTwice 1 =
      [{ toProduct := prodTwice, qty := 2 }] := by
  refine ⟨add_of_mem_nodup l₁ l₂ it prodIn qty, add_of_not_mem items prodOut qty, ?_⟩
  have h0 : CartProvider.add [] prodTwice 1 = [{ toProduct := prodTwice, qty := 1 }] :=
    add_of_not_mem [] prodTwice 1 (by simp)
  rw [h0]
  have h1 := add_of_mem_nodup [] [] { toProduct := prodTwice, qty := 1 } prodTwice 1
    (by simp) rfl
  simpa using h1

/-- C2 (witness): `add_merges_by_id` at concrete carts — merging into a
two-line cart, appending to a one-line cart, and the double-add of the
same product. -/
theorem add_merges_by_id_witness :
    CartProvider.add [⟨sampleA, 5⟩, ⟨sampleB, 1⟩] sampleA 3 =
      [⟨sampleA, 8⟩, ⟨sampleB, 1⟩] ∧
    CartProvider.add [⟨sampleA, 5⟩] sampleB 3 = [⟨sampleA, 5⟩, ⟨sampleB, 3⟩] ∧
    CartProvider.add (CartProvider.add [] sampleA 1) sampleA 1 = [⟨sampleA, 2⟩] := by
  have h := add_merges_by_id [] [⟨sampleB, 1⟩] [⟨sampleA, 5⟩] ⟨sampleA, 5⟩
    sampleA sampleB sampleA 3
  refine ⟨?_, ?_, h.2.2⟩
  · have h1 := h.1 (by decide) (by decide)
    simpa using h1
  · exact h.2.1 (by decide)

/-- `add` preserves a lower bound of 1 on all quantities when called with
a quantity of at least 1. -/
lemma add_preserves_qty_lb (items : List CartItem) (p : Product) (q : Int)
    (hq : 1 ≤ q) (h : ∀ it ∈ items, 1 ≤ it.qty) :
    ∀ it ∈ CartProvider.add items p q, 1 ≤ it.qty := by
  intro it hit
  rw [CartProvider.add] at hit
  split at hit
  · rw [List.mem_map] at hit
    obtain ⟨x, hx, hfx⟩ := hit
    by_cases hid : x.id = p.id
    · rw [if_pos hid] at hfx
      have := h x hx
      subst hfx
      simp only []
      omega
    · rw [if_neg hid] at hfx
      subst hfx
      exact h x hx
  · rw [List.mem_append] at hit
    cases hit with
    | inl hmem => exact h it hmem
    | inr hmem =>
      rw [List.mem_singleton] at hmem
      subst hmem
      exact hq

/-- Any sequence of interface operations whose `add` calls all pass a
quantity of at least 1 preserves the lower bound of 1 on all quantities,
from any cart already satisfying it. -/
lemma foldl_cartOps_qty_lb (ops : List CartOp) :
    ∀ items, (∀ op ∈ ops, opQtyOk op = true) → (∀ it ∈ items, 1 ≤ it.qty) →
      ∀ it ∈ ops.foldl applyCartOp items, 1 ≤ it.qty := by
  induction ops with
  | nil => intro items _ h it hit; exact h it (by simpa using hit)
  | cons op rest ih =>
    intro items hops h
    rw [List.foldl_cons]
    refine ih _ (fun o ho => hops o (List.mem_cons_of_mem _ ho)) ?_
    have hop := hops op (List.mem_cons_self _ _)
    cases op with
    | add p q =>
      rw [opQtyOk, decide_eq_true_iff] at hop
      exact add_preserves_qty_lb items p q hop h
    | remove id =>
      intro it hit
      rw [applyCartOp, CartProvider.remove, List.mem_filter] at hit
      exact h it hit.1
    | clear =>
      intro it hit
      simp [applyCartOp, CartProvider.clear] at hit

/-- C7 (amended): every cart reachable from the empty cart by a sequence
of `add`, `remove` and `clear` operations whose `add` calls pass a
quantity of at least 1 — the app itself only ever passes the default 1 —
has every line quantity at least 1.  (The interface performs no
validation, so this restriction on the `add` arguments is necessary: see
the counterexample.) -/
theorem cart_quantity_invariant (ops : List CartOp)
    (h : ops.all opQtyOk = true) : cartQtysOk (runCartOps ops) = true := by
  rw [cartQtysOk, List.all_eq_true]
  intro it hit
  rw [decide_eq_true_iff]
  exact foldl_cartOps_qty_lb ops [] (List.all_eq_true.1 h) (by simp) it hit

/-- C7 (witness): the invariant at a concrete operation sequence that
adds, merges, removes a missing id and appends. -/
theorem cart_quantity_invariant_witness :
    cartQtysOk (runCartOps
      [CartOp.add sampleA 1, CartOp.add sampleA 1,
       CartOp.remove "zzz", CartOp.add sampleB 2]) = true :=
  cart_quantity_invariant
    [CartOp.add sampleA 1, CartOp.add sampleA 1,
     CartOp.remove "zzz", CartOp.add sampleB 2] (by decide)

/-- C7 (counterexample): the interface accepts a quantity argument of 0,
and one `add` with quantity 0 reaches a cart whose single line has
quantity 0 — the claimed invariant fails for some quantity arguments the
interface accepts. -/
theorem cart_quantity_invariant_cx :
    cartQtysOk (runCartOps [CartOp.add sampleA 0]) = false := by decide

/-- When the added product id is already present, `add` leaves the list of
line ids unchanged (only a quantity changes). -/
lemma add_ids_of_found (items : List CartItem) (p : Product) (q : Int)
    (h : items.any (fun x => decide (x.id = p.id)) = true) :
    ((CartProvider.add items p q).map fun x => x.id) = items.map fun x => x.id := by
  rw [CartProvider.add, if_pos h, List.map_map]
  refine List.map_congr_left ?_
  intro x _
  by_cases hid : x.id = p.id
  · simp [Function.comp, hid]
  · simp [Function.comp, hid]

/-- Every single interface operation preserves pairwise-distinct line
ids. -/
lemma applyCartOp_ids_nodup (items : List CartItem)
    (h : (items.map fun x => x.id).Nodup) (op : CartOp) :
    ((applyCartOp items op).map fun x => x.id).Nodup := by
  cases op with
  | add p q =>
    by_cases hf : items.any (fun x => decide (x.id = p.id)) = true
    · rw [applyCartOp, add_ids_of_found items p q hf]
      exact h
    · rw [applyCartOp, CartProvider.add, if_neg hf, List.map_append, List.nodup_append]
      refine ⟨h, List.nodup_singleton _, ?_⟩
      intro a ha hb
      rw [List.mem_map] at ha
      obtain ⟨x, hx, hxid⟩ := ha
      rw [List.map_singleton, List.mem_singleton] at hb
      refine hf ?_
      rw [List.any_eq_true]
      exact ⟨x, hx, by simp [hxid, hb]⟩
  | remove id =>
    exact List.Nodup.sublist (List.Sublist.map _ (List.filter_sublist items)) h
  | clear =>
    simp [applyCartOp, CartProvider.clear]

/-- Every cart reachable from the empty cart through the interface has
pairwise-distinct line ids — the invariant assumed by the merging case of
the C2 theorem, which thereby describes every reachable cart. -/
theorem reachable_cart_ids_nodup (ops : List CartOp) :
    ((runCartOps ops).map fun x => x.id).Nodup := by
  rw [runCartOps]
  have hgen : ∀ items, (items.map fun x => x.id).Nodup →
      ((ops.foldl applyCartOp items).map fun x => x.id).Nodup := by
    induction ops with
    | nil => intro items h; simpa using h
    | cons op rest ih =>
      intro items h
      rw [List.foldl_cons]
      exact ih _ (applyCartOp_ids_nodup items h op)
  exact hgen [] (by simp)
